import Mathlib

/-!
Verification of the RDP GDI frame-synchronization layer of guacamole-server
(`src/protocols/rdp/gdi.c`): rectangle dirty-region accumulation, paint-burst
raw-context management, frame markers and acknowledgment, desktop resize, and
monitor-layout JSON serialization.

The libguac rectangle helpers (`guac_rect_init`, `guac_rect_extend`,
`guac_rect_constrain`) and the libguac display primitives
(`guac_display_layer_open_raw` / `guac_display_layer_close_raw`) are not part
of the sources under verification; they are modelled from the specification,
as marked on each definition. Everything else is translated directly from
`gdi.c`.
-/

namespace GuacGdi

/-- Modelled from the spec: libguac's `guac_rect`, a rectangle held as signed
left/top/right/bottom edges. The region covered is
`[left, right) × [top, bottom)`. -/
structure GuacRect where
  left : Int
  top : Int
  right : Int
  bottom : Int
deriving DecidableEq, Repr

/-- Modelled from the spec: `guac_rect_init(rect, x, y, w, h)` initializes a
rectangle from a corner point and dimensions. -/
def guac_rect_init (x y w h : Int) : GuacRect :=
  { left := x, top := y, right := x + w, bottom := y + h }

/-- A rectangle is empty when it covers no points. -/
def GuacRect.isEmpty (r : GuacRect) : Bool :=
  r.right ≤ r.left || r.bottom ≤ r.top

/-- The set of integer points covered by a rectangle. -/
def GuacRect.pts (r : GuacRect) : Set (Int × Int) :=
  { p | r.left ≤ p.1 ∧ p.1 < r.right ∧ r.top ≤ p.2 ∧ p.2 < r.bottom }

/-- Modelled from the spec: `guac_rect_extend(rect, min)` computes the
bounding-box union of the two rectangles. Extending by an empty rectangle
leaves the accumulated rectangle unchanged (the spec requires committing an
empty dirty region to be a no-op on previously committed state). -/
def guac_rect_extend (r s : GuacRect) : GuacRect :=
  if s.isEmpty then r
  else if r.isEmpty then s
  else
    { left := min r.left s.left, top := min r.top s.top,
      right := max r.right s.right, bottom := max r.bottom s.bottom }

/-- Modelled from the spec: `guac_rect_constrain(rect, bounds)` clips a
rectangle to the given bounds (set intersection of the covered regions). -/
def guac_rect_constrain (r b : GuacRect) : GuacRect :=
  { left := max r.left b.left, top := max r.top b.top,
    right := min r.right b.right, bottom := min r.bottom b.bottom }

/-- The dirty-region accumulation step performed at end-paint
(`gdi.c` lines 188-195), iterated over a sequence of invalidated rectangles
submitted within one open raw context: each rectangle is clipped to the
context bounds and merged into the accumulated dirty rectangle. -/
def guac_rdp_dirty_accumulate (bounds dirty : GuacRect) (rs : List GuacRect) : GuacRect :=
  rs.foldl (fun d r => guac_rect_extend d (guac_rect_constrain r bounds)) dirty

theorem isEmpty_iff (r : GuacRect) :
    r.isEmpty = true ↔ r.right ≤ r.left ∨ r.bottom ≤ r.top := by
  simp [GuacRect.isEmpty, Bool.or_eq_true, decide_eq_true_eq]

theorem pts_eq_empty_iff (r : GuacRect) : r.pts = ∅ ↔ r.isEmpty = true := by
  constructor
  · intro h
    by_contra hne
    rw [isEmpty_iff] at hne
    push_neg at hne
    have hmem : (r.left, r.top) ∈ r.pts := by
      simp only [GuacRect.pts, Set.mem_setOf_eq]
      exact ⟨le_refl _, hne.1, le_refl _, hne.2⟩
    rw [h] at hmem
    exact hmem
  · intro h
    rw [isEmpty_iff] at h
    ext p
    simp only [GuacRect.pts, Set.mem_setOf_eq, Set.mem_empty_iff_false, iff_false]
    intro hp
    rcases h with h | h <;> omega

theorem pts_constrain (r b : GuacRect) :
    (guac_rect_constrain r b).pts = r.pts ∩ b.pts := by
  ext p
  simp only [guac_rect_constrain, GuacRect.pts, Set.mem_setOf_eq, Set.mem_inter_iff]
  omega

theorem extend_empty_right (r s : GuacRect) (h : s.isEmpty = true) :
    guac_rect_extend r s = r := by
  simp [guac_rect_extend, h]

theorem isEmpty_eq_false_iff (r : GuacRect) :
    r.isEmpty = false ↔ r.left < r.right ∧ r.top < r.bottom := by
  simp only [GuacRect.isEmpty, Bool.or_eq_false_iff, decide_eq_false_iff_not, not_le]

theorem extend_empty_left (r s : GuacRect) (hs : s.isEmpty = false) (hr : r.isEmpty = true) :
    guac_rect_extend r s = s := by
  rw [guac_rect_extend, if_neg (by simp [hs]), if_pos hr]

theorem extend_nonempty_eq (r s : GuacRect)
    (hr : r.isEmpty = false) (hs : s.isEmpty = false) :
    guac_rect_extend r s =
      { left := min r.left s.left, top := min r.top s.top,
        right := max r.right s.right, bottom := max r.bottom s.bottom } := by
  rw [guac_rect_extend, if_neg (by simp [hs]), if_neg (by simp [hr])]

theorem extend_not_isEmpty (r s : GuacRect)
    (hr : r.isEmpty = false) (hs : s.isEmpty = false) :
    (guac_rect_extend r s).isEmpty = false := by
  rw [extend_nonempty_eq r s hr hs]
  rw [isEmpty_eq_false_iff] at hr hs ⊢
  show min r.left s.left < max r.right s.right ∧ min r.top s.top < max r.bottom s.bottom
  constructor
  · calc min r.left s.left ≤ r.left := min_le_left _ _
    _ < r.right := hr.1
    _ ≤ max r.right s.right := le_max_left _ _
  · calc min r.top s.top ≤ r.top := min_le_left _ _
    _ < r.bottom := hr.2
    _ ≤ max r.bottom s.bottom := le_max_left _ _

theorem extend_right_comm (d a b : GuacRect) :
    guac_rect_extend (guac_rect_extend d a) b
      = guac_rect_extend (guac_rect_extend d b) a := by
  by_cases ha : a.isEmpty = true
  · rw [extend_empty_right d a ha, extend_empty_right (guac_rect_extend d b) a ha]
  · rw [Bool.not_eq_true] at ha
    by_cases hb : b.isEmpty = true
    · rw [extend_empty_right d b hb, extend_empty_right (guac_rect_extend d a) b hb]
    · rw [Bool.not_eq_true] at hb
      by_cases hd : d.isEmpty = true
      · rw [extend_empty_left d a ha hd, extend_empty_left d b hb hd,
          extend_nonempty_eq a b ha hb, extend_nonempty_eq b a hb ha]
        simp only [GuacRect.mk.injEq]
        exact ⟨min_comm _ _, min_comm _ _, max_comm _ _, max_comm _ _⟩
      · rw [Bool.not_eq_true] at hd
        have hda := extend_not_isEmpty d a hd ha
        have hdb := extend_not_isEmpty d b hd hb
        rw [extend_nonempty_eq d a hd ha] at hda
        rw [extend_nonempty_eq d b hd hb] at hdb
        rw [extend_nonempty_eq d a hd ha, extend_nonempty_eq d b hd hb,
          extend_nonempty_eq _ b hda hb, extend_nonempty_eq _ a hdb ha]
        simp only [GuacRect.mk.injEq]
        exact ⟨min_right_comm _ _ _, min_right_comm _ _ _,
          Max.right_comm _ _ _, Max.right_comm _ _ _⟩

theorem rect_pts_subset_iff (r u : GuacRect) (hr : r.isEmpty = false) :
    r.pts ⊆ u.pts ↔
      u.left ≤ r.left ∧ r.right ≤ u.right ∧ u.top ≤ r.top ∧ r.bottom ≤ u.bottom := by
  rw [isEmpty_eq_false_iff] at hr
  constructor
  · intro hsub
    have h1 : (r.left, r.top) ∈ r.pts := by
      simp only [GuacRect.pts, Set.mem_setOf_eq]
      exact ⟨le_refl _, hr.1, le_refl _, hr.2⟩
    have h2 : (r.right - 1, r.bottom - 1) ∈ r.pts := by
      simp only [GuacRect.pts, Set.mem_setOf_eq]
      omega
    have hu1 := hsub h1
    have hu2 := hsub h2
    simp only [GuacRect.pts, Set.mem_setOf_eq] at hu1 hu2
    omega
  · intro hb p hp
    simp only [GuacRect.pts, Set.mem_setOf_eq] at hp ⊢
    omega

theorem pts_subset_extend_left (r s : GuacRect) : r.pts ⊆ (guac_rect_extend r s).pts := by
  by_cases hs : s.isEmpty = true
  · rw [extend_empty_right r s hs]
  · rw [Bool.not_eq_true] at hs
    by_cases hr : r.isEmpty = true
    · rw [extend_empty_left r s hs hr]
      rw [← pts_eq_empty_iff] at hr
      rw [hr]
      exact Set.empty_subset _
    · rw [Bool.not_eq_true] at hr
      rw [extend_nonempty_eq r s hr hs, rect_pts_subset_iff r _ hr]
      exact ⟨min_le_left _ _, le_max_left _ _, min_le_left _ _, le_max_left _ _⟩

theorem pts_subset_extend_right (r s : GuacRect) : s.pts ⊆ (guac_rect_extend r s).pts := by
  by_cases hs : s.isEmpty = true
  · rw [← pts_eq_empty_iff] at hs
    rw [hs]
    exact Set.empty_subset _
  · rw [Bool.not_eq_true] at hs
    by_cases hr : r.isEmpty = true
    · rw [extend_empty_left r s hs hr]
    · rw [Bool.not_eq_true] at hr
      rw [extend_nonempty_eq r s hr hs, rect_pts_subset_iff s _ hs]
      exact ⟨min_le_right _ _, le_max_right _ _, min_le_right _ _, le_max_right _ _⟩

theorem pts_extend_subset (r s u : GuacRect)
    (hr : r.pts ⊆ u.pts) (hs : s.pts ⊆ u.pts) :
    (guac_rect_extend r s).pts ⊆ u.pts := by
  by_cases hse : s.isEmpty = true
  · rw [extend_empty_right r s hse]
    exact hr
  · rw [Bool.not_eq_true] at hse
    by_cases hre : r.isEmpty = true
    · rw [extend_empty_left r s hse hre]
      exact hs
    · rw [Bool.not_eq_true] at hre
      rw [rect_pts_subset_iff r u hre] at hr
      rw [rect_pts_subset_iff s u hse] at hs
      have hne := extend_not_isEmpty r s hre hse
      rw [rect_pts_subset_iff _ u hne]
      simp only [extend_nonempty_eq r s hre hse]
      exact ⟨le_min hr.1 hs.1, max_le hr.2.1 hs.2.1,
        le_min hr.2.2.1 hs.2.2.1, max_le hr.2.2.2 hs.2.2.2⟩

theorem accumulate_cons (bounds d r : GuacRect) (rs : List GuacRect) :
    guac_rdp_dirty_accumulate bounds d (r :: rs)
      = guac_rdp_dirty_accumulate bounds (guac_rect_extend d (guac_rect_constrain r bounds)) rs :=
  rfl

theorem pts_init_subset_accumulate (bounds : GuacRect) (rs : List GuacRect) :
    ∀ d : GuacRect, d.pts ⊆ (guac_rdp_dirty_accumulate bounds d rs).pts := by
  induction rs with
  | nil => intro d; exact le_refl _
  | cons r rs ih =>
    intro d
    rw [accumulate_cons]
    exact (pts_subset_extend_left d (guac_rect_constrain r bounds)).trans (ih _)

theorem pts_mem_subset_accumulate (bounds : GuacRect) (rs : List GuacRect) :
    ∀ d : GuacRect, ∀ r ∈ rs,
      (guac_rect_constrain r bounds).pts ⊆ (guac_rdp_dirty_accumulate bounds d rs).pts := by
  induction rs with
  | nil => intro d r hmem; exact absurd hmem (List.not_mem_nil r)
  | cons a rs ih =>
    intro d r hmem
    rw [accumulate_cons]
    rcases List.mem_cons.mp hmem with h | h
    · subst h
      exact (pts_subset_extend_right d (guac_rect_constrain r bounds)).trans
        (pts_init_subset_accumulate bounds rs _)
    · exact ih _ r h

theorem accumulate_pts_lub (bounds : GuacRect) (rs : List GuacRect) :
    ∀ d u : GuacRect, d.pts ⊆ u.pts →
      (∀ r ∈ rs, (guac_rect_constrain r bounds).pts ⊆ u.pts) →
      (guac_rdp_dirty_accumulate bounds d rs).pts ⊆ u.pts := by
  induction rs with
  | nil => intro d u hd _; exact hd
  | cons a rs ih =>
    intro d u hd hall
    rw [accumulate_cons]
    exact ih _ u (pts_extend_subset d _ u hd (hall a (List.mem_cons_self a rs)))
      fun r hr => hall r (List.mem_cons_of_mem a hr)

/-- Claim C1: the dirty region accumulated over one paint burst equals the
bounding-box union of the previously accumulated dirty rectangle with each
invalidated rectangle clipped to the context's bounds (it contains all of
them, and is contained in every rectangle that contains all of them), and the
result is independent of the order in which the rectangles were submitted. -/
theorem dirty_commit_is_orderfree_bbox_union
    (bounds dirty0 : GuacRect) (rs rs2 : List GuacRect) (hperm : rs.Perm rs2) :
    guac_rdp_dirty_accumulate bounds dirty0 rs = guac_rdp_dirty_accumulate bounds dirty0 rs2
    ∧ dirty0.pts ⊆ (guac_rdp_dirty_accumulate bounds dirty0 rs).pts
    ∧ (∀ r ∈ rs, (guac_rect_constrain r bounds).pts ⊆
        (guac_rdp_dirty_accumulate bounds dirty0 rs).pts)
    ∧ ∀ u : GuacRect, dirty0.pts ⊆ u.pts →
        (∀ r ∈ rs, (guac_rect_constrain r bounds).pts ⊆ u.pts) →
        (guac_rdp_dirty_accumulate bounds dirty0 rs).pts ⊆ u.pts := by
  refine ⟨?_, pts_init_subset_accumulate bounds rs dirty0,
    pts_mem_subset_accumulate bounds rs dirty0,
    fun u hd hall => accumulate_pts_lub bounds rs dirty0 u hd hall⟩
  exact List.Perm.foldl_eq' hperm
    (fun x _ y _ z => extend_right_comm z (guac_rect_constrain x bounds)
      (guac_rect_constrain y bounds)) dirty0

/-- Witness for C1 at concrete inputs: bounds 0..100 square, two rectangles
submitted in both orders. -/
theorem dirty_commit_is_orderfree_bbox_union_witness :
    ([⟨2, 3, 10, 12⟩, ⟨-5, 40, 200, 90⟩] : List GuacRect).Perm
        [⟨-5, 40, 200, 90⟩, ⟨2, 3, 10, 12⟩]
    ∧ (guac_rdp_dirty_accumulate ⟨0, 0, 100, 100⟩ ⟨0, 0, 0, 0⟩
          [⟨2, 3, 10, 12⟩, ⟨-5, 40, 200, 90⟩]
        = guac_rdp_dirty_accumulate ⟨0, 0, 100, 100⟩ ⟨0, 0, 0, 0⟩
          [⟨-5, 40, 200, 90⟩, ⟨2, 3, 10, 12⟩]
      ∧ (⟨0, 0, 0, 0⟩ : GuacRect).pts ⊆
          (guac_rdp_dirty_accumulate ⟨0, 0, 100, 100⟩ ⟨0, 0, 0, 0⟩
            [⟨2, 3, 10, 12⟩, ⟨-5, 40, 200, 90⟩]).pts
      ∧ (∀ r ∈ ([⟨2, 3, 10, 12⟩, ⟨-5, 40, 200, 90⟩] : List GuacRect),
          (guac_rect_constrain r ⟨0, 0, 100, 100⟩).pts ⊆
            (guac_rdp_dirty_accumulate ⟨0, 0, 100, 100⟩ ⟨0, 0, 0, 0⟩
              [⟨2, 3, 10, 12⟩, ⟨-5, 40, 200, 90⟩]).pts)
      ∧ ∀ u : GuacRect, (⟨0, 0, 0, 0⟩ : GuacRect).pts ⊆ u.pts →
          (∀ r ∈ ([⟨2, 3, 10, 12⟩, ⟨-5, 40, 200, 90⟩] : List GuacRect),
            (guac_rect_constrain r ⟨0, 0, 100, 100⟩).pts ⊆ u.pts) →
          (guac_rdp_dirty_accumulate ⟨0, 0, 100, 100⟩ ⟨0, 0, 0, 0⟩
            [⟨2, 3, 10, 12⟩, ⟨-5, 40, 200, 90⟩]).pts ⊆ u.pts) :=
  ⟨by decide, dirty_commit_is_orderfree_bbox_union ⟨0, 0, 100, 100⟩ ⟨0, 0, 0, 0⟩
    [⟨2, 3, 10, 12⟩, ⟨-5, 40, 200, 90⟩] [⟨-5, 40, 200, 90⟩, ⟨2, 3, 10, 12⟩] (by decide)⟩

/-! ### Downstream events and frame markers -/

/-- Observable calls this layer makes on its downstream collaborators: the
render-thread frame notification, the transport frame acknowledgment, the
layer-parameter update carrying the monitor-layout JSON, and the
default-cursor reset. -/
inductive GdiEvent where
  | notifyFrame
  | frameAck (frameId : Nat)
  | setLayerParam (json : String)
  | setCursorDefault
deriving DecidableEq, Repr

/-- FreeRDP constant: action code of an explicit FRAME_MARKER order that
starts a frame. -/
def FRAME_START : Nat := 0

/-- FreeRDP constant: action code of an explicit FRAME_MARKER order that ends
a frame. -/
def FRAME_END : Nat := 1

/-- FreeRDP constant: frame action of a SURFACE_FRAME_MARKER that begins a
frame. -/
def SURFACECMD_FRAMEACTION_BEGIN : Nat := 0

/-- FreeRDP constant: frame action of a SURFACE_FRAME_MARKER that ends a
frame. -/
def SURFACECMD_FRAMEACTION_END : Nat := 1

/-- Payload of an explicit FRAME_MARKER order (external engine input). -/
structure FRAME_MARKER_ORDER where
  action : Nat
deriving DecidableEq, Repr

/-- Payload of a SURFACE_FRAME_MARKER surface command (external engine
input). -/
structure SURFACE_FRAME_MARKER where
  frameAction : Nat
  frameId : Nat
deriving DecidableEq, Repr

/-- `guac_rdp_gdi_mark_frame` (gdi.c lines 95-104): notifies the render
thread unless the marker signals the start of a frame. Returns the list of
downstream calls made. -/
def guac_rdp_gdi_mark_frame (starting : Bool) : List GdiEvent :=
  if !starting then [GdiEvent.notifyFrame] else []

/-- `guac_rdp_gdi_frame_marker` (gdi.c lines 106-109): explicit FRAME_MARKER
orders are forwarded to `mark_frame` with starting = (action == FRAME_START).
Returns the downstream calls and the BOOL result. -/
def guac_rdp_gdi_frame_marker (fm : FRAME_MARKER_ORDER) : List GdiEvent × Bool :=
  (guac_rdp_gdi_mark_frame (fm.action == FRAME_START), true)

/-- `guac_rdp_gdi_surface_frame_marker` (gdi.c lines 111-128): surface frame
markers are forwarded to `mark_frame` with
starting = (frameAction != SURFACECMD_FRAMEACTION_END); additionally, when
the configured FrameAcknowledge setting is positive, the frame identifier is
acknowledged downstream. -/
def guac_rdp_gdi_surface_frame_marker (frame_acknowledge : Nat)
    (m : SURFACE_FRAME_MARKER) : List GdiEvent × Bool :=
  let evs := guac_rdp_gdi_mark_frame (m.frameAction != SURFACECMD_FRAMEACTION_END)
  (if frame_acknowledge > 0 then evs ++ [GdiEvent.frameAck m.frameId] else evs, true)

/-- Processing of a whole sequence of surface frame markers, concatenating
the downstream calls each produces. -/
def processSurfaceFrameMarkers (frame_acknowledge : Nat)
    (ms : List SURFACE_FRAME_MARKER) : List GdiEvent :=
  ms.foldl (fun acc m => acc ++ (guac_rdp_gdi_surface_frame_marker frame_acknowledge m).1) []

/-- The acknowledgment calls among a list of downstream calls. -/
def ackEvents (evs : List GdiEvent) : List GdiEvent :=
  evs.filter fun e =>
    match e with
    | GdiEvent.frameAck _ => true
    | _ => false

/-- The number of frame-ready notifications among a list of downstream
calls. -/
def notifyCount (evs : List GdiEvent) : Nat :=
  (evs.filter fun e =>
    match e with
    | GdiEvent.notifyFrame => true
    | _ => false).length

theorem ackEvents_append (l1 l2 : List GdiEvent) :
    ackEvents (l1 ++ l2) = ackEvents l1 ++ ackEvents l2 := by
  simp only [ackEvents]
  exact List.filter_append l1 l2

theorem ackEvents_mark_frame (b : Bool) :
    ackEvents (guac_rdp_gdi_mark_frame b) = [] := by
  cases b <;> rfl

theorem notifyCount_append (l1 l2 : List GdiEvent) :
    notifyCount (l1 ++ l2) = notifyCount l1 + notifyCount l2 := by
  simp [notifyCount, List.filter_append]

theorem ack_foldl_zero_threshold (ms : List SURFACE_FRAME_MARKER) :
    ∀ acc : List GdiEvent,
      ackEvents (ms.foldl
        (fun acc m => acc ++ (guac_rdp_gdi_surface_frame_marker 0 m).1) acc)
      = ackEvents acc := by
  induction ms with
  | nil => intro acc; rfl
  | cons m ms ih =>
    intro acc
    rw [List.foldl_cons, ih]
    simp only [guac_rdp_gdi_surface_frame_marker, gt_iff_lt, Nat.lt_irrefl, if_false,
      ackEvents_append, ackEvents_mark_frame, List.append_nil]

/-- Claim C3: with a positive acknowledgment threshold, an end-of-frame
surface marker produces exactly one downstream acknowledgment carrying that
marker's frame identifier; with threshold zero, an arbitrary sequence of
surface frame markers produces zero acknowledgment calls. -/
theorem surface_frame_marker_ack_per_end_marker
    (thr : Nat) (m : SURFACE_FRAME_MARKER) (ms : List SURFACE_FRAME_MARKER) :
    (thr > 0 → m.frameAction = SURFACECMD_FRAMEACTION_END →
      ackEvents (guac_rdp_gdi_surface_frame_marker thr m).1
        = [GdiEvent.frameAck m.frameId])
    ∧ (thr = 0 → ackEvents (processSurfaceFrameMarkers thr ms) = []) := by
  constructor
  · intro hthr _
    simp only [guac_rdp_gdi_surface_frame_marker, gt_iff_lt, hthr, if_pos,
      ackEvents_append, ackEvents_mark_frame, List.nil_append]
    rfl
  · intro hz
    subst hz
    rw [processSurfaceFrameMarkers, ack_foldl_zero_threshold ms []]
    rfl

/-- Witness for C3: a single end marker with threshold 1 yields exactly its
acknowledgment; a start and an end marker with threshold 0 yield none. -/
theorem surface_frame_marker_ack_per_end_marker_witness :
    ((1 : Nat) > 0
      ∧ (⟨1, 7⟩ : SURFACE_FRAME_MARKER).frameAction = SURFACECMD_FRAMEACTION_END
      ∧ ackEvents (guac_rdp_gdi_surface_frame_marker 1 ⟨1, 7⟩).1
          = [GdiEvent.frameAck 7])
    ∧ ((0 : Nat) = 0
      ∧ ackEvents (processSurfaceFrameMarkers 0 [⟨1, 3⟩, ⟨0, 4⟩]) = []) :=
  ⟨⟨by decide, rfl,
    (surface_frame_marker_ack_per_end_marker 1 ⟨1, 7⟩ []).1 (by decide) rfl⟩,
   ⟨rfl, (surface_frame_marker_ack_per_end_marker 0 ⟨1, 7⟩ [⟨1, 3⟩, ⟨0, 4⟩]).2 rfl⟩⟩

/-- Claim C4: both upstream frame-marker shapes collapse to the same
notify-on-end semantics: exactly one frame-ready notification on a frame-end
signal, none on a frame-start signal, for any acknowledgment threshold. -/
theorem frame_markers_notify_exactly_on_end
    (thr : Nat) (fm : FRAME_MARKER_ORDER) (sm : SURFACE_FRAME_MARKER) :
    (fm.action = FRAME_END → notifyCount (guac_rdp_gdi_frame_marker fm).1 = 1)
    ∧ (fm.action = FRAME_START → notifyCount (guac_rdp_gdi_frame_marker fm).1 = 0)
    ∧ (sm.frameAction = SURFACECMD_FRAMEACTION_END →
        notifyCount (guac_rdp_gdi_surface_frame_marker thr sm).1 = 1)
    ∧ (sm.frameAction = SURFACECMD_FRAMEACTION_BEGIN →
        notifyCount (guac_rdp_gdi_surface_frame_marker thr sm).1 = 0) := by
  obtain ⟨ac⟩ := fm
  obtain ⟨fa, fid⟩ := sm
  refine ⟨?_, ?_, ?_, ?_⟩ <;> intro h <;> simp only at h <;> subst h
  · rfl
  · rfl
  · simp only [guac_rdp_gdi_surface_frame_marker]
    by_cases hthr : thr > 0 <;>
      simp [hthr, notifyCount_append, guac_rdp_gdi_mark_frame,
        SURFACECMD_FRAMEACTION_END, notifyCount]
  · simp only [guac_rdp_gdi_surface_frame_marker]
    by_cases hthr : thr > 0 <;>
      simp [hthr, notifyCount_append, guac_rdp_gdi_mark_frame,
        SURFACECMD_FRAMEACTION_BEGIN, SURFACECMD_FRAMEACTION_END, notifyCount]

/-- Witness for C4: an explicit end marker and an explicit start marker, and
the two surface marker shapes, at threshold 5. -/
theorem frame_markers_notify_exactly_on_end_witness :
    ((⟨1⟩ : FRAME_MARKER_ORDER).action = FRAME_END
      ∧ notifyCount (guac_rdp_gdi_frame_marker ⟨1⟩).1 = 1)
    ∧ ((⟨0⟩ : FRAME_MARKER_ORDER).action = FRAME_START
      ∧ notifyCount (guac_rdp_gdi_frame_marker ⟨0⟩).1 = 0)
    ∧ ((⟨1, 9⟩ : SURFACE_FRAME_MARKER).frameAction = SURFACECMD_FRAMEACTION_END
      ∧ notifyCount (guac_rdp_gdi_surface_frame_marker 5 ⟨1, 9⟩).1 = 1)
    ∧ ((⟨0, 9⟩ : SURFACE_FRAME_MARKER).frameAction = SURFACECMD_FRAMEACTION_BEGIN
      ∧ notifyCount (guac_rdp_gdi_surface_frame_marker 5 ⟨0, 9⟩).1 = 0) :=
  ⟨⟨rfl, (frame_markers_notify_exactly_on_end 5 ⟨1⟩ ⟨1, 9⟩).1 rfl⟩,
   ⟨rfl, (frame_markers_notify_exactly_on_end 5 ⟨0⟩ ⟨1, 9⟩).2.1 rfl⟩,
   ⟨rfl, (frame_markers_notify_exactly_on_end 5 ⟨1⟩ ⟨1, 9⟩).2.2.1 rfl⟩,
   ⟨rfl, (frame_markers_notify_exactly_on_end 5 ⟨1⟩ ⟨0, 9⟩).2.2.2 rfl⟩⟩

/-- Claim C9 (implicit): with a positive acknowledgment threshold, every
surface frame marker is acknowledged with its frame identifier, regardless of
its action code — including frame-start markers. -/
theorem surface_frame_marker_acks_regardless_of_action
    (thr : Nat) (m : SURFACE_FRAME_MARKER) (h : thr > 0) :
    ackEvents (guac_rdp_gdi_surface_frame_marker thr m).1
      = [GdiEvent.frameAck m.frameId] := by
  simp only [guac_rdp_gdi_surface_frame_marker, gt_iff_lt, h, if_pos,
    ackEvents_append, ackEvents_mark_frame, List.nil_append]
  rfl

/-- Witness for C9: a frame-start surface marker at threshold 1 is still
acknowledged. -/
theorem surface_frame_marker_acks_regardless_of_action_witness :
    (1 : Nat) > 0
    ∧ ackEvents (guac_rdp_gdi_surface_frame_marker 1 ⟨0, 5⟩).1
        = [GdiEvent.frameAck 5] :=
  ⟨by decide, surface_frame_marker_acks_regardless_of_action 1 ⟨0, 5⟩ (by decide)⟩

/-! ### Monitor layout serialization -/

/-- One monitor of the client display (`rdp_client->disp->monitors[i]`). -/
structure Monitor where
  left_offset : Int
  top_offset : Int
  requested_width : Int
  requested_height : Int
deriving DecidableEq, Repr

/-- One serialized monitor entry, following exactly the snprintf format
string of `guac_rdp_build_monitor_layout_json` (gdi.c lines 80-87). -/
def monitor_entry (i : Nat) (m : Monitor) : String :=
  "\"" ++ toString i ++ "\":\x7b\"left\":" ++ toString m.left_offset ++
    ",\"top\":" ++ toString m.top_offset ++
    ",\"width\":" ++ toString m.requested_width ++
    ",\"height\":" ++ toString m.requested_height ++ "\x7d"

/-- The serialization loop of `guac_rdp_build_monitor_layout_json`
(gdi.c lines 62-90), abstracted from the output buffer mechanics: iterate
over the indexed monitors, skip those with zero requested width or height,
and separate successive entries with commas. -/
def build_monitor_json_loop : List (Nat × Monitor) → Bool → String → String
  | [], _, acc => acc ++ "\x7d"
  | (i, m) :: rest, first, acc =>
    if m.requested_width = 0 ∨ m.requested_height = 0 then
      build_monitor_json_loop rest first acc
    else
      build_monitor_json_loop rest false
        ((if first then acc else acc ++ ",") ++ monitor_entry i m)

/-- `guac_rdp_build_monitor_layout_json` (gdi.c lines 52-93): builds the JSON
description of all initialized monitors. -/
def guac_rdp_build_monitor_layout_json (monitors : List Monitor) : String :=
  build_monitor_json_loop monitors.enum true "\x7b"

/-! ### Session state and paint bursts -/

/-- FreeRDP's accumulated invalid region of the primary GDI surface
(`gdi->primary->hdc->hwnd->invalid`): a null flag and a bounding rectangle
given as INT32 position and UINT32 dimensions. -/
structure InvalidRegion where
  null : Bool
  x : Int
  y : Int
  w : Nat
  h : Nat
deriving DecidableEq, Repr

/-- The FreeRDP GDI state read and cleared by this layer (`context->gdi`). -/
structure Gdi where
  width : Int
  height : Int
  stride : Int
  primary_buffer : Nat
  suppressOutput : Bool
  invalid : InvalidRegion
  ninvalid : Nat
deriving DecidableEq, Repr

/-- A `guac_display_layer_raw_context`: exclusive scoped access to the
layer's buffer, with clip bounds and the transient dirty rectangle
accumulated during the burst. -/
structure RawContext where
  buffer : Nat
  stride : Int
  bounds : GuacRect
  dirty : GuacRect
deriving DecidableEq, Repr

/-- The state touched by the gdi.c handlers: FreeRDP's GDI, the
`rdp_client->current_context` reference and `gdi_modified` flag, and the
default display layer's persistent committed dirty state, dimensions, and
monitor table. -/
structure SessionState where
  gdi : Gdi
  current_context : Option RawContext
  gdi_modified : Bool
  layer_dirty : GuacRect
  layer_width : Int
  layer_height : Int
  monitors : List Monitor
deriving DecidableEq, Repr

/-- Outcome of one handler call: normal return with the downstream calls made
and the BOOL result, or a fatal GUAC_ASSERT failure observed at the state the
assertion was checked in. -/
inductive StepResult where
  | ok (st : SessionState) (events : List GdiEvent) (ret : Bool)
  | assertFailed (st : SessionState)
deriving DecidableEq, Repr

/-- Modelled from the spec: `guac_display_layer_open_raw` grants an exclusive
raw context on the layer; its dirty rectangle is initially empty. -/
def guac_display_layer_open_raw (st : SessionState) : RawContext :=
  { buffer := st.gdi.primary_buffer, stride := st.gdi.stride,
    bounds := guac_rect_init 0 0 st.layer_width st.layer_height,
    dirty := ⟨0, 0, 0, 0⟩ }

/-- Modelled from the spec: `guac_display_layer_close_raw` commits the
accumulated dirty rectangle into the layer's persistent dirty-tracking state
and releases the context. -/
def guac_display_layer_close_raw (st : SessionState) (c : RawContext) : SessionState :=
  { st with layer_dirty := guac_rect_extend st.layer_dirty c.dirty }

/-- `guac_rdp_gdi_begin_paint` (gdi.c lines 130-150): asserts that no raw
context is currently open, then opens one on the default layer and
resynchronizes its buffer, stride, and bounds with FreeRDP's GDI. -/
def guac_rdp_gdi_begin_paint (st : SessionState) : StepResult :=
  if st.current_context.isSome then StepResult.assertFailed st
  else
    let c0 := guac_display_layer_open_raw st
    let c := { c0 with
      buffer := st.gdi.primary_buffer
      stride := st.gdi.stride
      bounds := guac_rect_init 0 0 st.gdi.width st.gdi.height }
    StepResult.ok { st with current_context := some c } [] true

/-- C's INT_MAX, the bound asserted on the invalid-region dimensions. -/
def INT_MAX : Nat := 2147483647

/-- The `paint_complete` tail of `guac_rdp_gdi_end_paint` (gdi.c lines
197-207): clear FreeRDP's invalid-region state for future draws, drop the
open-context reference, and close (commit) the raw context. -/
def paint_complete (st : SessionState) (c : RawContext) : SessionState :=
  guac_display_layer_close_raw
    { st with
      gdi := { st.gdi with
        invalid := { st.gdi.invalid with null := true }
        ninvalid := 0 }
      current_context := none } c

/-- `guac_rdp_gdi_end_paint` (gdi.c lines 152-209): tolerated no-op when no
context is open; otherwise skips the dirty-region accumulation when output is
suppressed or the invalid region is null, asserts the invalid dimensions fit
in signed arithmetic, accumulates the clipped invalid rectangle into the
context's dirty rectangle, marks the GDI modified, and completes the
paint. -/
def guac_rdp_gdi_end_paint (st : SessionState) : StepResult :=
  match st.current_context with
  | none => StepResult.ok st [] true
  | some c =>
    if st.gdi.suppressOutput then StepResult.ok (paint_complete st c) [] true
    else if st.gdi.invalid.null then StepResult.ok (paint_complete st c) [] true
    else if st.gdi.invalid.w ≤ INT_MAX ∧ st.gdi.invalid.h ≤ INT_MAX then
      let dst := guac_rect_constrain
        (guac_rect_init st.gdi.invalid.x st.gdi.invalid.y st.gdi.invalid.w st.gdi.invalid.h)
        c.bounds
      let c2 := { c with dirty := guac_rect_extend c.dirty dst }
      StepResult.ok
        (paint_complete { st with gdi_modified := true, current_context := some c2 } c2)
        [] true
    else StepResult.assertFailed st

/-- Modelled from the spec: FreeRDP's `gdi_resize` reallocates the engine's
primary buffer and updates its geometry to the newly reported dimensions
(external engine primitive, spec §4.4 step 3); the fresh buffer handle and
stride come from the engine. -/
def gdi_resize (g : Gdi) (width height : Int) (newBuffer : Nat) (newStride : Int) : Gdi :=
  { g with
    width := width
    height := height
    primary_buffer := newBuffer
    stride := newStride }

/-- `guac_rdp_gdi_desktop_resize` (gdi.c lines 211-266), on the compile path
where the no-open-context assertion applies (FreeRDP before 3.8; with newer
FreeRDP a still-open context has already been flushed by EndPaint inside
`gdi_resize`, so the states reaching the body coincide): opens a raw context,
resizes the GDI buffer, asserts the new buffer handle is non-null, updates
the context's buffer/stride/bounds, resizes the layer to the new dimensions,
closes the context, then sends the monitor-layout JSON and resets the
cursor. -/
def guac_rdp_gdi_desktop_resize (st : SessionState) (width height : Int)
    (newBuffer : Nat) (newStride : Int) : StepResult :=
  if st.current_context.isSome then StepResult.assertFailed st
  else
    let c0 := guac_display_layer_open_raw st
    let g := gdi_resize st.gdi width height newBuffer newStride
    if g.primary_buffer = 0 then StepResult.assertFailed { st with gdi := g }
    else
      let c := { c0 with
        buffer := g.primary_buffer
        stride := g.stride
        bounds := guac_rect_init 0 0 g.width g.height }
      let st2 := guac_display_layer_close_raw
        { st with gdi := g, layer_width := g.width, layer_height := g.height } c
      StepResult.ok st2
        [GdiEvent.setLayerParam (guac_rdp_build_monitor_layout_json st2.monitors),
         GdiEvent.setCursorDefault] true

/-- The raw context produced by a successful begin-paint on state `st`: the
freshly opened context with buffer, stride and bounds resynchronized from
FreeRDP's GDI and an empty dirty rectangle. -/
def begin_paint_ctx (st : SessionState) : RawContext :=
  { buffer := st.gdi.primary_buffer, stride := st.gdi.stride,
    bounds := guac_rect_init 0 0 st.gdi.width st.gdi.height,
    dirty := ⟨0, 0, 0, 0⟩ }

/-- Example monitor table used by concrete witnesses: monitor 1 has zero
width and is uninitialized. -/
def exMonitors : List Monitor := [⟨0, 0, 1920, 1080⟩, ⟨0, 1920, 0, 1080⟩]

/-- Example FreeRDP GDI state used by concrete witnesses. -/
def exGdi : Gdi :=
  { width := 100, height := 80, stride := 400, primary_buffer := 1,
    suppressOutput := false,
    invalid := { null := false, x := 2, y := 3, w := 10, h := 10 },
    ninvalid := 1 }

/-- Example session state with no open context, used by concrete witnesses. -/
def exState : SessionState :=
  { gdi := exGdi, current_context := none, gdi_modified := false,
    layer_dirty := ⟨0, 0, 0, 0⟩, layer_width := 100, layer_height := 80,
    monitors := exMonitors }

/-- Example raw context open on `exState`, used by concrete witnesses. -/
def exCtx : RawContext :=
  { buffer := 1, stride := 400, bounds := guac_rect_init 0 0 100 80,
    dirty := ⟨0, 0, 0, 0⟩ }

/-- Example session state with an open context, used by concrete witnesses. -/
def exStateOpen : SessionState := { exState with current_context := some exCtx }

/-- Claim C2: calling begin-paint while a raw context is already open for the
layer fails the GUAC_ASSERT contract check, and does so before any write: the
state observed at the assertion failure is exactly the entry state. -/
theorem begin_paint_double_open_asserts (st : SessionState) (c : RawContext)
    (h : st.current_context = some c) :
    guac_rdp_gdi_begin_paint st = StepResult.assertFailed st := by
  simp [guac_rdp_gdi_begin_paint, h]

/-- Witness for C2: begin-paint on the example state with an open context. -/
theorem begin_paint_double_open_asserts_witness :
    exStateOpen.current_context = some exCtx
    ∧ guac_rdp_gdi_begin_paint exStateOpen = StepResult.assertFailed exStateOpen :=
  ⟨rfl, begin_paint_double_open_asserts exStateOpen exCtx rfl⟩

theorem end_paint_none_noop (s : SessionState) (hs : s.current_context = none) :
    guac_rdp_gdi_end_paint s = StepResult.ok s [] true := by
  rw [guac_rdp_gdi_end_paint, hs]

theorem end_paint_ok_clears_context (s1 s2 : SessionState)
    (evs : List GdiEvent) (ret : Bool)
    (hseq : guac_rdp_gdi_end_paint s1 = StepResult.ok s2 evs ret) :
    s2.current_context = none := by
  rcases hctx : s1.current_context with _ | c
  · rw [guac_rdp_gdi_end_paint, hctx] at hseq
    cases hseq
    exact hctx
  · rw [guac_rdp_gdi_end_paint, hctx] at hseq
    split_ifs at hseq <;> cases hseq <;> rfl

/-- Claim C5: end-paint with no open raw context is a tolerated no-op: it
returns success, makes no downstream calls, commits no dirty region, and
leaves the whole state unchanged; and after any successful end-paint, a
second consecutive end-paint is such a no-op. -/
theorem end_paint_unmatched_is_noop (st st1 st2 : SessionState)
    (evs : List GdiEvent) (ret : Bool)
    (h : st.current_context = none)
    (hseq : guac_rdp_gdi_end_paint st1 = StepResult.ok st2 evs ret) :
    guac_rdp_gdi_end_paint st = StepResult.ok st [] true
    ∧ guac_rdp_gdi_end_paint st2 = StepResult.ok st2 [] true :=
  ⟨end_paint_none_noop st h,
   end_paint_none_noop st2 (end_paint_ok_clears_context st1 st2 evs ret hseq)⟩

/-- Witness for C5: end-paint on the example state with no open context, and
a second end-paint following the successful end-paint of a burst. -/
theorem end_paint_unmatched_is_noop_witness :
    exState.current_context = none
    ∧ guac_rdp_gdi_end_paint exStateOpen
        = StepResult.ok (paint_complete
            { exStateOpen with
              gdi_modified := true
              current_context := some { exCtx with
                dirty := guac_rect_extend exCtx.dirty
                  (guac_rect_constrain (guac_rect_init 2 3 10 10) exCtx.bounds) } }
            { exCtx with
              dirty := guac_rect_extend exCtx.dirty
                (guac_rect_constrain (guac_rect_init 2 3 10 10) exCtx.bounds) }) [] true
    ∧ (guac_rdp_gdi_end_paint exState = StepResult.ok exState [] true
      ∧ guac_rdp_gdi_end_paint (paint_complete
            { exStateOpen with
              gdi_modified := true
              current_context := some { exCtx with
                dirty := guac_rect_extend exCtx.dirty
                  (guac_rect_constrain (guac_rect_init 2 3 10 10) exCtx.bounds) } }
            { exCtx with
              dirty := guac_rect_extend exCtx.dirty
                (guac_rect_constrain (guac_rect_init 2 3 10 10) exCtx.bounds) })
          = StepResult.ok (paint_complete
            { exStateOpen with
              gdi_modified := true
              current_context := some { exCtx with
                dirty := guac_rect_extend exCtx.dirty
                  (guac_rect_constrain (guac_rect_init 2 3 10 10) exCtx.bounds) } }
            { exCtx with
              dirty := guac_rect_extend exCtx.dirty
                (guac_rect_constrain (guac_rect_init 2 3 10 10) exCtx.bounds) }) [] true) :=
  ⟨rfl, by decide, end_paint_unmatched_is_noop exState exStateOpen _ [] true rfl (by decide)⟩

/-- Claim C10: when GDI output is suppressed at end-paint time, the
engine-accumulated invalidated region is discarded even if non-empty: the
layer's committed dirty state and the modified flag are unchanged, while the
engine's invalid-region state is still cleared and the raw context opened by
begin-paint is closed. -/
theorem end_paint_suppressed_discards_region (st : SessionState)
    (hctx : st.current_context = none) (hsup : st.gdi.suppressOutput = true) :
    ∃ st1 st2 : SessionState,
      guac_rdp_gdi_begin_paint st = StepResult.ok st1 [] true
      ∧ guac_rdp_gdi_end_paint st1 = StepResult.ok st2 [] true
      ∧ st2.layer_dirty = st.layer_dirty
      ∧ st2.gdi_modified = st.gdi_modified
      ∧ st2.gdi.invalid.null = true
      ∧ st2.gdi.ninvalid = 0
      ∧ st2.current_context = none := by
  refine ⟨{ st with current_context := some (begin_paint_ctx st) },
    { st with
      gdi := { st.gdi with
        invalid := { st.gdi.invalid with null := true }
        ninvalid := 0 }
      current_context := none }, ?_, ?_, rfl, rfl, rfl, rfl, rfl⟩
  · rw [guac_rdp_gdi_begin_paint, if_neg (by rw [hctx]; simp)]
    rfl
  · rw [guac_rdp_gdi_end_paint]
    simp [paint_complete, guac_display_layer_close_raw, guac_rect_extend,
      GuacRect.isEmpty, begin_paint_ctx, hsup]


/-- Witness for C10: the example state with output suppressed and a non-empty
invalid region pending. -/
theorem end_paint_suppressed_discards_region_witness :
    ({ exState with gdi := { exGdi with suppressOutput := true } }
        : SessionState).current_context = none
    ∧ ({ exState with gdi := { exGdi with suppressOutput := true } }
        : SessionState).gdi.suppressOutput = true
    ∧ ∃ st1 st2 : SessionState,
      guac_rdp_gdi_begin_paint
          { exState with gdi := { exGdi with suppressOutput := true } }
        = StepResult.ok st1 [] true
      ∧ guac_rdp_gdi_end_paint st1 = StepResult.ok st2 [] true
      ∧ st2.layer_dirty
          = ({ exState with gdi := { exGdi with suppressOutput := true } }
            : SessionState).layer_dirty
      ∧ st2.gdi_modified
          = ({ exState with gdi := { exGdi with suppressOutput := true } }
            : SessionState).gdi_modified
      ∧ st2.gdi.invalid.null = true
      ∧ st2.gdi.ninvalid = 0
      ∧ st2.current_context = none :=
  ⟨rfl, rfl, end_paint_suppressed_discards_region
    { exState with gdi := { exGdi with suppressOutput := true } } rfl rfl⟩

/-- Claim C6: after a desktop resize to dimensions (W2, H2), the clip bounds
used for subsequent dirty-rectangle accumulation are exactly [0,0,W2,H2): the
next begin-paint opens a context with bounds `guac_rect_init 0 0 W2 H2`, and
any rectangle disjoint from those bounds — for example one that was valid
under the old bounds — is clipped to empty and leaves the accumulated dirty
rectangle unchanged. -/
theorem resize_sets_clip_bounds (st : SessionState) (W2 H2 : Int)
    (newBuffer : Nat) (newStride : Int)
    (hctx : st.current_context = none) (hbuf : newBuffer ≠ 0) :
    ∃ st2 : SessionState, ∃ evs : List GdiEvent,
      guac_rdp_gdi_desktop_resize st W2 H2 newBuffer newStride
        = StepResult.ok st2 evs true
      ∧ st2.gdi.width = W2 ∧ st2.gdi.height = H2
      ∧ st2.layer_width = W2 ∧ st2.layer_height = H2
      ∧ ∃ c : RawContext,
          guac_rdp_gdi_begin_paint st2
            = StepResult.ok { st2 with current_context := some c } [] true
          ∧ c.bounds = guac_rect_init 0 0 W2 H2
          ∧ ∀ r : GuacRect, r.pts ∩ (guac_rect_init 0 0 W2 H2).pts = ∅ →
              (guac_rect_constrain r c.bounds).isEmpty = true
              ∧ ∀ d : GuacRect,
                  guac_rect_extend d (guac_rect_constrain r c.bounds) = d := by
  have hres : guac_rdp_gdi_desktop_resize st W2 H2 newBuffer newStride
      = StepResult.ok
        { st with
          gdi := gdi_resize st.gdi W2 H2 newBuffer newStride
          layer_width := W2
          layer_height := H2
          layer_dirty := guac_rect_extend st.layer_dirty ⟨0, 0, 0, 0⟩ }
        [GdiEvent.setLayerParam (guac_rdp_build_monitor_layout_json st.monitors),
         GdiEvent.setCursorDefault] true := by
    rw [guac_rdp_gdi_desktop_resize, if_neg (by rw [hctx]; simp)]
    simp only [gdi_resize]
    rw [if_neg hbuf]
    rfl
  refine ⟨_, _, hres, rfl, rfl, rfl, rfl,
    { buffer := newBuffer, stride := newStride,
      bounds := guac_rect_init 0 0 W2 H2, dirty := ⟨0, 0, 0, 0⟩ }, ?_, rfl, ?_⟩
  · rw [guac_rdp_gdi_begin_paint, if_neg (by simp [hctx])]
    rfl
  · intro r hdisj
    have hempty : (guac_rect_constrain r (guac_rect_init 0 0 W2 H2)).isEmpty = true := by
      rw [← pts_eq_empty_iff, pts_constrain]
      exact hdisj
    exact ⟨hempty, fun d => extend_empty_right d _ hempty⟩

/-- Witness for C6: resize the example state to 200 by 150; the rectangle
(300,0)-(700,50) was valid under no new bound and is clipped to empty. -/
theorem resize_sets_clip_bounds_witness :
    exState.current_context = none
    ∧ (2 : Nat) ≠ 0
    ∧ ∃ st2 : SessionState, ∃ evs : List GdiEvent,
      guac_rdp_gdi_desktop_resize exState 200 150 2 800
        = StepResult.ok st2 evs true
      ∧ st2.gdi.width = 200 ∧ st2.gdi.height = 150
      ∧ st2.layer_width = 200 ∧ st2.layer_height = 150
      ∧ ∃ c : RawContext,
          guac_rdp_gdi_begin_paint st2
            = StepResult.ok { st2 with current_context := some c } [] true
          ∧ c.bounds = guac_rect_init 0 0 200 150
          ∧ ∀ r : GuacRect, r.pts ∩ (guac_rect_init 0 0 200 150).pts = ∅ →
              (guac_rect_constrain r c.bounds).isEmpty = true
              ∧ ∀ d : GuacRect,
                  guac_rect_extend d (guac_rect_constrain r c.bounds) = d :=
  ⟨rfl, by decide, resize_sets_clip_bounds exState 200 150 2 800 rfl (by decide)⟩

/-! ### Monitor layout serialization: canonical form -/

/-- A monitor is initialized when both requested dimensions are nonzero
(gdi.c lines 64-68). -/
def monitor_layout_included (m : Monitor) : Bool :=
  !(m.requested_width == 0 || m.requested_height == 0)

/-- The serialized entries of the initialized monitors, in ascending index
order. -/
def monitor_layout_entries (monitors : List Monitor) : List String :=
  (monitors.enum.filter fun p => monitor_layout_included p.2).map
    fun p => monitor_entry p.1 p.2

theorem intercalate_go_append (s : String) (l : List String) :
    ∀ a b : String, String.intercalate.go (a ++ b) s l
      = a ++ String.intercalate.go b s l := by
  induction l with
  | nil => intro a b; rfl
  | cons c rest ih =>
    intro a b
    show String.intercalate.go (a ++ b ++ s ++ c) s rest
      = a ++ String.intercalate.go (b ++ s ++ c) s rest
    rw [String.append_assoc a b s, String.append_assoc a (b ++ s) c]
    exact ih a (b ++ s ++ c)

theorem build_loop_canonical (l : List (Nat × Monitor)) :
    ∀ acc : String,
      (build_monitor_json_loop l true acc
        = acc ++ String.intercalate ","
            ((l.filter fun p => monitor_layout_included p.2).map
              fun p => monitor_entry p.1 p.2) ++ "\x7d")
      ∧ (build_monitor_json_loop l false acc
        = String.intercalate.go acc ","
            ((l.filter fun p => monitor_layout_included p.2).map
              fun p => monitor_entry p.1 p.2) ++ "\x7d") := by
  induction l with
  | nil =>
    intro acc
    constructor
    · show acc ++ "\x7d" = acc ++ "" ++ "\x7d"
      rw [String.append_empty]
    · rfl
  | cons p rest ih =>
    intro acc
    obtain ⟨i, m⟩ := p
    by_cases hm : m.requested_width = 0 ∨ m.requested_height = 0
    · have hfilter : monitor_layout_included m = false := by
        simp [monitor_layout_included]
        omega
      constructor
      · rw [build_monitor_json_loop, if_pos hm]
        simpa [hfilter] using (ih acc).1
      · rw [build_monitor_json_loop, if_pos hm]
        simpa [hfilter] using (ih acc).2
    · have hfilter : monitor_layout_included m = true := by
        simp [monitor_layout_included]
        omega
      constructor
      · rw [build_monitor_json_loop, if_neg hm]
        simp only [if_pos]
        rw [(ih (acc ++ monitor_entry i m)).2]
        simp only [List.filter_cons, hfilter, List.map_cons]
        rw [intercalate_go_append _ _ acc (monitor_entry i m)]
        rfl
      · rw [build_monitor_json_loop, if_neg hm]
        simp only [Bool.false_eq_true, if_false]
        rw [(ih (acc ++ "," ++ monitor_entry i m)).2]
        simp only [List.filter_cons, hfilter, List.map_cons]
        rfl

/-- Claim C7: monitor layout serialization is a pure, deterministic function
of the monitor collection: it always equals the canonical compact form with
entries of initialized monitors in ascending index order, comma-separated
with no trailing separator and no entries for zero-sized monitors; on the
example collection (monitor 1 has width 0) it is exactly the expected byte
string with no entry for index 1. -/
theorem monitor_layout_json_canonical (monitors : List Monitor) :
    guac_rdp_build_monitor_layout_json monitors
      = "\x7b" ++ String.intercalate "," (monitor_layout_entries monitors) ++ "\x7d"
    ∧ guac_rdp_build_monitor_layout_json exMonitors
      = "\x7b\"0\":\x7b\"left\":0,\"top\":0,\"width\":1920,\"height\":1080\x7d\x7d" :=
  ⟨(build_loop_canonical monitors.enum "\x7b").1, by decide⟩

/-! ### Monitor layout serialization: buffer mechanics -/

/-- Model of the C output buffer being filled by `snprintf` at increasing
offsets: characters written so far, allocated size, write position, and
whether any call ran out of space and truncated its output. Size and
position are naturals, faithful to the C `int` variables only while every
value the program computes stays within `int` range; the no-truncation
theorem therefore restricts the monitor count so that this holds (and proves
it via the size and position bounds), while `c_int_alloc_size` models the
`int` wrap of the allocation expression beyond that range. -/
structure CBuf where
  content : String
  size : Nat
  pos : Nat
  truncated : Bool
deriving DecidableEq, Repr

/-- One `pos += snprintf(json + pos, buffer_size - pos, ...)` step with C99
semantics: at most `buffer_size - pos - 1` characters are stored (plus the
terminating NUL) and the full untruncated length is added to `pos`. -/
def csnprintf (b : CBuf) (s : String) : CBuf :=
  if (s.length : Int) + 1 ≤ (b.size : Int) - (b.pos : Int) then
    ⟨b.content ++ s, b.size, b.pos + s.length, b.truncated⟩
  else
    ⟨b.content ++ s.take (((b.size : Int) - (b.pos : Int) - 1).toNat),
      b.size, b.pos + s.length, true⟩

/-- The `pos >= buffer_size - 100` growth check of the serializer
(gdi.c lines 74-78): double the allocation when headroom runs low; `realloc`
preserves the content written so far. -/
def buf_grow_check (b : CBuf) : CBuf :=
  if (b.size : Int) - 100 ≤ (b.pos : Int) then
    ⟨b.content, b.size * 2, b.pos, b.truncated⟩
  else b

/-- The serialization loop of `guac_rdp_build_monitor_layout_json`
(gdi.c lines 62-90) with the output-buffer mechanics modelled explicitly:
skip uninitialized monitors, write the comma separator, run the growth
check, write the entry. -/
def build_json_buf_loop : List (Nat × Monitor) → Bool → CBuf → CBuf
  | [], _, b => csnprintf b "\x7d"
  | (i, m) :: rest, first, b =>
    if m.requested_width = 0 ∨ m.requested_height = 0 then
      build_json_buf_loop rest first b
    else
      build_json_buf_loop rest false
        (csnprintf (buf_grow_check (if first then b else csnprintf b ","))
          (monitor_entry i m))

/-- `guac_rdp_build_monitor_layout_json` with buffer mechanics: the initial
allocation of `100 + monitors_count * 120` bytes (gdi.c line 55), the
opening brace, then the loop. The allocation is computed in the naturals;
`c_int_alloc_size` gives the C `int` evaluation of the same expression, and
the two agree exactly on the counts the no-truncation theorem admits. -/
def guac_rdp_build_monitor_layout_json_buf (monitors : List Monitor) : CBuf :=
  build_json_buf_loop monitors.enum true
    (csnprintf ⟨"", 100 + monitors.length * 120, 0, false⟩ "\x7b")

/-- All four coordinates of a monitor are representable as 32-bit C ints. -/
def MonitorInt32 (m : Monitor) : Prop :=
  -2147483648 ≤ m.left_offset ∧ m.left_offset ≤ 2147483647
  ∧ -2147483648 ≤ m.top_offset ∧ m.top_offset ≤ 2147483647
  ∧ -2147483648 ≤ m.requested_width ∧ m.requested_width ≤ 2147483647
  ∧ -2147483648 ≤ m.requested_height ∧ m.requested_height ≤ 2147483647

instance (m : Monitor) : Decidable (MonitorInt32 m) := by
  unfold MonitorInt32
  infer_instance

theorem nat_toString_length_le (n : Nat) (h : n < 2147483648) :
    (toString n).length ≤ 10 := by
  show (Nat.repr n).length ≤ 10
  exact Nat.repr_length n 10 (by norm_num) (by omega)

theorem int_toString_length_le (i : Int)
    (h1 : -2147483648 ≤ i) (h2 : i ≤ 2147483647) :
    (toString i).length ≤ 11 := by
  cases i with
  | ofNat n =>
    show (Nat.repr n).length ≤ 11
    rw [Int.ofNat_eq_coe] at h2
    have := Nat.repr_length n 10 (by norm_num) (by omega)
    omega
  | negSucc n =>
    show ("-" ++ Nat.repr (n + 1)).length ≤ 11
    rw [String.length_append]
    rw [Int.negSucc_eq] at h1
    have := Nat.repr_length (n + 1) 10 (by norm_num) (by omega)
    have hdash : ("-" : String).length = 1 := rfl
    omega

theorem monitor_entry_length_le (i : Nat) (m : Monitor)
    (hi : i < 2147483648) (hm : MonitorInt32 m) :
    (monitor_entry i m).length ≤ 92 := by
  obtain ⟨h1, h2, h3, h4, h5, h6, h7, h8⟩ := hm
  have hI := nat_toString_length_le i hi
  have hL := int_toString_length_le m.left_offset h1 h2
  have hT := int_toString_length_le m.top_offset h3 h4
  have hW := int_toString_length_le m.requested_width h5 h6
  have hH := int_toString_length_le m.requested_height h7 h8
  have e1 : ("\"" : String).length = 1 := rfl
  have e2 : ("\":\x7b\"left\":" : String).length = 10 := rfl
  have e3 : (",\"top\":" : String).length = 7 := rfl
  have e4 : (",\"width\":" : String).length = 9 := rfl
  have e5 : (",\"height\":" : String).length = 10 := rfl
  have e6 : ("\x7d" : String).length = 1 := rfl
  simp only [monitor_entry, String.length_append]
  omega

theorem csnprintf_fits (bc : String) (bs bp : Nat) (bt : Bool) (s : String)
    (h : bp + s.length + 1 ≤ bs) :
    csnprintf ⟨bc, bs, bp, bt⟩ s = ⟨bc ++ s, bs, bp + s.length, bt⟩ := by
  simp only [csnprintf]
  rw [if_pos (show (s.length : Int) + 1 ≤ (bs : Int) - (bp : Int) by omega)]

/-- Two's-complement wrap of a signed 32-bit C `int`: the value the program
actually holds after any arithmetic step. -/
def int32_wrap (n : Int) : Int :=
  (n + 2147483648) % 4294967296 - 2147483648

/-- The C `int` evaluation of the initial allocation
`100 + (rdp_client->disp->monitors_count * 120)` at gdi.c:55, with each
arithmetic step reduced to `int` range. -/
def c_int_alloc_size (count : Nat) : Int :=
  int32_wrap (100 + int32_wrap ((count : Int) * 120))

/-- Counterexample to C8 as stated: at 17,895,697 monitors — a count within
the "unbounded number of monitors" the claim covers and within C int range —
the program's initial-allocation expression (gdi.c:55) overflows signed int
and computes a negative size, smaller than a single serialized entry, so the
serializer cannot hold any of its output, let alone avoid truncation. -/
theorem monitor_layout_alloc_overflow_counterexample :
    (17895697 : Nat) ≤ 2147483647
    ∧ c_int_alloc_size 17895697 = -2147483556
    ∧ c_int_alloc_size 17895697 < 0
    ∧ (0 : Int) < ((monitor_entry 0 ⟨0, 0, 1920, 1080⟩).length : Int)
    ∧ c_int_alloc_size 17895697
        < ((monitor_entry 0 ⟨0, 0, 1920, 1080⟩).length : Int) := by
  refine ⟨by decide, by decide, by decide, by decide, by decide⟩

/-- The growth check leaves the buffer unchanged whenever at least 102 bytes
of headroom remain. -/
theorem buf_grow_check_skip (bc : String) (bs bp : Nat) (h : bp + 102 ≤ bs) :
    buf_grow_check ⟨bc, bs, bp, false⟩ = ⟨bc, bs, bp, false⟩ := by
  simp only [buf_grow_check]
  split_ifs with hc
  · exfalso
    omega
  · rfl

/-- The serialization loop with buffer mechanics, on a buffer whose headroom
is at least `99 + 120 * (remaining monitors)` bytes: nothing is ever
truncated, the content equals the pure serialization loop, the buffer size
never changes (the doubling branch is never reached, because the 120 bytes
per monitor of the initial allocation dominate the at most 92-byte entries),
and the write position advances by at most 94 bytes per monitor plus the
closing brace. -/
theorem buf_loop_no_growth (l : List (Nat × Monitor)) :
    ∀ (first : Bool) (b : CBuf),
      b.truncated = false → b.pos = b.content.length →
      b.pos + 99 + 120 * l.length ≤ b.size →
      (∀ p ∈ l, (monitor_entry p.1 p.2).length ≤ 92) →
      (build_json_buf_loop l first b).truncated = false
      ∧ (build_json_buf_loop l first b).content
          = build_monitor_json_loop l first b.content
      ∧ (build_json_buf_loop l first b).size = b.size
      ∧ (build_json_buf_loop l first b).pos ≤ b.pos + 94 * l.length + 1 := by
  induction l with
  | nil =>
    intro first b ht hp hroom _
    obtain ⟨bc, bs, bp, bt⟩ := b
    have ht2 : bt = false := ht
    have hroom2 : bp + 99 ≤ bs := hroom
    subst ht2
    have hone : ("\x7d" : String).length = 1 := rfl
    rw [build_json_buf_loop, build_monitor_json_loop,
      csnprintf_fits bc bs bp false "\x7d" (by omega)]
    refine ⟨rfl, rfl, rfl, ?_⟩
    show bp + ("\x7d" : String).length ≤ bp + 94 * 0 + 1
    omega
  | cons p rest ih =>
    intro first b ht hp hroom hlen
    obtain ⟨i, m⟩ := p
    obtain ⟨bc, bs, bp, bt⟩ := b
    have ht2 : bt = false := ht
    have hp2 : bp = bc.length := hp
    have hroom2 : bp + 99 + 120 * (rest.length + 1) ≤ bs := hroom
    subst ht2
    have hentry : (monitor_entry i m).length ≤ 92 :=
      hlen (i, m) (List.mem_cons_self _ _)
    have hrest : ∀ q ∈ rest, (monitor_entry q.1 q.2).length ≤ 92 :=
      fun q hq => hlen q (List.mem_cons_of_mem _ hq)
    have hcm : ("," : String).length = 1 := rfl
    by_cases hm : m.requested_width = 0 ∨ m.requested_height = 0
    · rw [build_json_buf_loop, if_pos hm, build_monitor_json_loop, if_pos hm]
      obtain ⟨t3, c3, s3, p3⟩ := ih first ⟨bc, bs, bp, false⟩ rfl hp2
        (by show bp + 99 + 120 * rest.length ≤ bs
            omega) hrest
      have p4 : (build_json_buf_loop rest first ⟨bc, bs, bp, false⟩).pos
          ≤ bp + 94 * rest.length + 1 := p3
      refine ⟨t3, c3, s3, ?_⟩
      show (build_json_buf_loop rest first ⟨bc, bs, bp, false⟩).pos
        ≤ bp + 94 * (rest.length + 1) + 1
      omega
    · rw [build_json_buf_loop, if_neg hm, build_monitor_json_loop, if_neg hm]
      cases first
      · simp only [Bool.false_eq_true, if_false]
        rw [csnprintf_fits bc bs bp false "," (by omega), hcm,
          buf_grow_check_skip (bc ++ ",") bs (bp + 1) (by omega),
          csnprintf_fits (bc ++ ",") bs (bp + 1) false (monitor_entry i m) (by omega)]
        obtain ⟨t3, c3, s3, p3⟩ := ih false
          ⟨(bc ++ ",") ++ monitor_entry i m, bs,
            bp + 1 + (monitor_entry i m).length, false⟩
          rfl
          (by show bp + 1 + (monitor_entry i m).length
                = ((bc ++ ",") ++ monitor_entry i m).length
              simp only [String.length_append]
              omega)
          (by show bp + 1 + (monitor_entry i m).length + 99 + 120 * rest.length ≤ bs
              omega)
          hrest
        have p4 : (build_json_buf_loop rest false
            ⟨(bc ++ ",") ++ monitor_entry i m, bs,
              bp + 1 + (monitor_entry i m).length, false⟩).pos
            ≤ bp + 1 + (monitor_entry i m).length + 94 * rest.length + 1 := p3
        refine ⟨t3, c3, s3, ?_⟩
        show (build_json_buf_loop rest false
            ⟨(bc ++ ",") ++ monitor_entry i m, bs,
              bp + 1 + (monitor_entry i m).length, false⟩).pos
          ≤ bp + 94 * (rest.length + 1) + 1
        omega
      · simp only [eq_self_iff_true, if_true]
        rw [buf_grow_check_skip bc bs bp (by omega),
          csnprintf_fits bc bs bp false (monitor_entry i m) (by omega)]
        obtain ⟨t3, c3, s3, p3⟩ := ih false
          ⟨bc ++ monitor_entry i m, bs, bp + (monitor_entry i m).length, false⟩
          rfl
          (by show bp + (monitor_entry i m).length = (bc ++ monitor_entry i m).length
              simp only [String.length_append]
              omega)
          (by show bp + (monitor_entry i m).length + 99 + 120 * rest.length ≤ bs
              omega)
          hrest
        have p4 : (build_json_buf_loop rest false
            ⟨bc ++ monitor_entry i m, bs, bp + (monitor_entry i m).length, false⟩).pos
            ≤ bp + (monitor_entry i m).length + 94 * rest.length + 1 := p3
        refine ⟨t3, c3, s3, ?_⟩
        show (build_json_buf_loop rest false
            ⟨bc ++ monitor_entry i m, bs, bp + (monitor_entry i m).length, false⟩).pos
          ≤ bp + 94 * (rest.length + 1) + 1
        omega

/-- Claim C8 as amended: for every monitor collection with 32-bit
coordinates and at most 17,895,696 monitors — the largest count for which
the initial allocation `100 + 120 * count` fits in a C int — the serializer
never truncates any nonzero-sized monitor entry: the buffer holds exactly
the full serialized layout. The buffer size stays at the initial allocation
(the doubling branch is never reached, since the allocation dominates the at
most 92-byte entries), every buffer size and write position the program
computes stays within C int range, and the C int evaluation of the
allocation agrees with the model, so no signed overflow occurs on these
inputs. -/
theorem monitor_layout_int_range_never_truncates (monitors : List Monitor)
    (hm : ∀ m ∈ monitors, MonitorInt32 m)
    (hn : monitors.length ≤ 17895696) :
    (guac_rdp_build_monitor_layout_json_buf monitors).truncated = false
    ∧ (guac_rdp_build_monitor_layout_json_buf monitors).content
        = guac_rdp_build_monitor_layout_json monitors
    ∧ (guac_rdp_build_monitor_layout_json_buf monitors).size
        = 100 + monitors.length * 120
    ∧ (guac_rdp_build_monitor_layout_json_buf monitors).size ≤ 2147483647
    ∧ (guac_rdp_build_monitor_layout_json_buf monitors).pos
        ≤ (guac_rdp_build_monitor_layout_json_buf monitors).size
    ∧ c_int_alloc_size monitors.length = 100 + (monitors.length : Int) * 120 := by
  have hlen : ∀ p ∈ monitors.enum, (monitor_entry p.1 p.2).length ≤ 92 := by
    intro p hp
    have hi := List.fst_lt_of_mem_enum hp
    have hmm := List.snd_mem_of_mem_enum hp
    exact monitor_entry_length_le p.1 p.2 (by omega) (hm p.2 hmm)
  have hbrace : ("\x7b" : String).length = 1 := rfl
  have hstart : csnprintf ⟨"", 100 + monitors.length * 120, 0, false⟩ "\x7b"
      = ⟨"\x7b", 100 + monitors.length * 120, 1, false⟩ :=
    csnprintf_fits "" (100 + monitors.length * 120) 0 false "\x7b" (by omega)
  have henum : monitors.enum.length = monitors.length := List.enum_length
  obtain ⟨t1, c1, s1, p1⟩ :=
    buf_loop_no_growth monitors.enum true
      ⟨"\x7b", 100 + monitors.length * 120, 1, false⟩ rfl rfl
      (by show 1 + 99 + 120 * monitors.enum.length ≤ 100 + monitors.length * 120
          rw [henum]
          omega)
      hlen
  have halloc : c_int_alloc_size monitors.length
      = 100 + (monitors.length : Int) * 120 := by
    have hcast : (monitors.length : Int) ≤ 17895696 := by exact_mod_cast hn
    unfold c_int_alloc_size int32_wrap
    omega
  have hs2 : (build_json_buf_loop monitors.enum true
      ⟨"\x7b", 100 + monitors.length * 120, 1, false⟩).size
      = 100 + monitors.length * 120 := s1
  have hp2 : (build_json_buf_loop monitors.enum true
      ⟨"\x7b", 100 + monitors.length * 120, 1, false⟩).pos
      ≤ 1 + 94 * monitors.enum.length + 1 := p1
  rw [guac_rdp_build_monitor_layout_json_buf, hstart]
  refine ⟨t1, c1, hs2, by rw [hs2]; omega, ?_, halloc⟩
  rw [hs2, henum] at *
  omega

/-- Witness for the amended C8: the example monitor table. -/
theorem monitor_layout_int_range_never_truncates_witness :
    (∀ m ∈ exMonitors, MonitorInt32 m)
    ∧ exMonitors.length ≤ 17895696
    ∧ ((guac_rdp_build_monitor_layout_json_buf exMonitors).truncated = false
      ∧ (guac_rdp_build_monitor_layout_json_buf exMonitors).content
          = guac_rdp_build_monitor_layout_json exMonitors
      ∧ (guac_rdp_build_monitor_layout_json_buf exMonitors).size
          = 100 + exMonitors.length * 120
      ∧ (guac_rdp_build_monitor_layout_json_buf exMonitors).size ≤ 2147483647
      ∧ (guac_rdp_build_monitor_layout_json_buf exMonitors).pos
          ≤ (guac_rdp_build_monitor_layout_json_buf exMonitors).size
      ∧ c_int_alloc_size exMonitors.length
          = 100 + (exMonitors.length : Int) * 120) :=
  ⟨by decide, by decide,
   monitor_layout_int_range_never_truncates exMonitors (by decide) (by decide)⟩

end GuacGdi
